import Mathlib

/-!
Verification development for the Doris storage-core sources:
`olap/tablet_meta.h` (TabletState, TabletMeta, DeleteBitmap) and
`olap/rowset/segment_v2/segment.cpp` (Segment open / footer parse / iterators).

Bytes are modelled as natural numbers below 256; files as lists of bytes.
Machine-word arithmetic (`size_t` accumulation) is modelled on `Nat` with an
explicit `% 2 ^ 64`.  Fallible operations return `Except Status`.
-/

set_option autoImplicit false

namespace Doris

/-- Error kinds used by the modelled code paths (`common/status.h` collaborator). -/
inductive Status where
  | OK
  | Corruption
  | InternalError
deriving DecidableEq, Repr

/-- `decode_fixed32_le` from `util/coding.h`: reads the first four bytes of the
buffer as a little-endian 32-bit integer.  Out-of-range positions read as 0. -/
def decode_fixed32_le (buf : List Nat) : Nat :=
  buf.getD 0 0 + buf.getD 1 0 * 256 + buf.getD 2 0 * 65536 + buf.getD 3 0 * 16777216

/-- Little-endian 4-byte encoding of a 32-bit value (the writer-side layout of
the footer-length and checksum fields of the segment trailer). -/
def encode_fixed32_le (n : Nat) : List Nat :=
  [n % 256, n / 256 % 256, n / 65536 % 256, n / 16777216 % 256]

/-- One unrolled round of the reflected CRC-32C bit loop. -/
def crc32c_round (c : Nat) : Nat :=
  if c % 2 = 1 then (c / 2) ^^^ 0x82F63B78 else c / 2

/-- Folding one byte into the running CRC: xor into the low byte, then eight
shift-and-conditionally-xor rounds with the reflected Castagnoli polynomial. -/
def crc32c_byte (c b : Nat) : Nat :=
  crc32c_round (crc32c_round (crc32c_round (crc32c_round
    (crc32c_round (crc32c_round (crc32c_round (crc32c_round (c ^^^ b))))))))

/-- Modelled from the spec: `crc32c::Value` (`util/crc32c.cpp` is not under
`src/`).  The spec fixes the checksum algorithm as CRC32C of the footer bytes;
this is the standard bitwise CRC-32C (Castagnoli): initial value `0xFFFFFFFF`,
reflected polynomial `0x82F63B78`, final xor `0xFFFFFFFF`. -/
def crc32c (data : List Nat) : Nat :=
  (data.foldl crc32c_byte 0xFFFFFFFF) ^^^ 0xFFFFFFFF

/-- Modelled from the spec: `k_segment_magic` / `k_segment_magic_length` from
`segment_writer.h` (not under `src/`).  The trailer ends in a fixed 4-byte
magic constant; the concrete byte values never matter to any claim, only
equality with the constant does.  We use the bytes of the string D0R1. -/
def k_segment_magic : List Nat := [68, 48, 82, 49]

/-- `k_segment_magic_length` (4 bytes). -/
def k_segment_magic_length : Nat := 4

/-- One `read_at(offset, Slice(buf, len))` call issued against the file
reader, recorded so theorems can speak about the exact I/O performed. -/
structure ReadOp where
  offset : Nat
  len : Nat
deriving DecidableEq, Repr

/-- The byte-range-readable collaborator interface: `read_at(offset, len)`
returns the bytes of the file in `[offset, offset+len)`. -/
def read_at (file : List Nat) (offset len : Nat) : List Nat :=
  (file.drop offset).take len

/-- Shallow embedding of `Segment::_parse_footer` (`segment.cpp`).
`crc` abstracts the `crc32c::Value` collaborator and `parse` abstracts
`SegmentFooterPB::ParseFromString` (protobuf); `F` is the parsed footer type.
Returns the status/footer outcome together with the ordered list of
`read_at` calls the code performed.

Source control flow: fail `Corruption` if `file_size < 12`; read the 12-byte
trailer at `file_size - 12`; fail if the last 4 trailer bytes differ from the
magic; decode `footer_length` from the first 4 trailer bytes; fail if
`file_size < 12 + footer_length` — in the C++ the literal `12` is an `int`
and `footer_length` a `uint32_t`, so this sum is computed in 32-bit unsigned
arithmetic and wraps mod `2 ^ 32` (for `footer_length ≥ 2 ^ 32 - 12` it
wraps into `[0, 11]` and the guard is bypassed), modelled here by the
explicit `% 2 ^ 32`; then read `footer_length` bytes at
`file_size - 12 - footer_length` (u64 arithmetic — exact whenever the guard
did not wrap, since then `footer_length ≤ file_size - 12`; when the guard
wrapped and `footer_length > file_size - 12` the source's u64 offset
underflows to a huge out-of-range value, modelled by the clamped Nat
subtraction, so in that region only the fact and length of the attempted
read are asserted by theorems, not its offset or outcome); fail if the
checksum differs from the second trailer field; fail if the footer payload
does not parse. -/
def parse_footer {F : Type} (crc : List Nat → Nat) (parse : List Nat → Option F)
    (file : List Nat) : Except Status F × List ReadOp :=
  let file_size := file.length
  if file_size < 12 then
    (Except.error Status.Corruption, [])
  else
    let fixed_buf := read_at file (file_size - 12) 12
    let trailer_read : ReadOp := ⟨file_size - 12, 12⟩
    if fixed_buf.drop 8 ≠ k_segment_magic then
      (Except.error Status.Corruption, [trailer_read])
    else
      let footer_length := decode_fixed32_le fixed_buf
      if file_size < (12 + footer_length) % 2 ^ 32 then
        (Except.error Status.Corruption, [trailer_read])
      else
        let footer_buf := read_at file (file_size - 12 - footer_length) footer_length
        let footer_read : ReadOp := ⟨file_size - 12 - footer_length, footer_length⟩
        let expect_checksum := decode_fixed32_le (fixed_buf.drop 4)
        let actual_checksum := crc footer_buf
        if actual_checksum ≠ expect_checksum then
          (Except.error Status.Corruption, [trailer_read, footer_read])
        else
          match parse footer_buf with
          | none => (Except.error Status.Corruption, [trailer_read, footer_read])
          | some f => (Except.ok f, [trailer_read, footer_read])

/-- The trivial parse collaborator used for concrete witnesses: parses any
byte string (as the protobuf parser does for the payloads in the witnesses we
evaluate, in particular the empty payload, which is a valid empty
`SegmentFooterPB`). -/
def parse_any : List Nat → Option (List Nat) := fun l => some l

/-! ### Derived views of the footer-parsing reads -/

/-- The 12 trailer bytes the code reads at `file_size - 12`. -/
def trailer_buf (file : List Nat) : List Nat := read_at file (file.length - 12) 12

/-- The footer length the code decodes from the first 4 trailer bytes. -/
def footer_len (file : List Nat) : Nat := decode_fixed32_le (trailer_buf file)

/-- The footer bytes the code reads at `file_size - 12 - footer_length`. -/
def footer_buf (file : List Nat) : List Nat :=
  read_at file (file.length - 12 - footer_len file) (footer_len file)

/-- The checksum the code decodes from the middle 4 trailer bytes. -/
def stored_crc (file : List Nat) : Nat := decode_fixed32_le ((trailer_buf file).drop 4)

/-- A segment file laid out as the writer produces it: body pages, footer
bytes, then the 12-byte trailer (LE footer length, LE checksum, magic). -/
def segment_file (body footer : List Nat) (crcv : Nat) : List Nat :=
  body ++ footer ++ encode_fixed32_le footer.length ++ encode_fixed32_le crcv ++
    k_segment_magic

/-- The success condition of claim C1 exactly as the claim states it: the
file is not smaller than the fixed 12-byte trailer, the 4 magic bytes at the
end of the trailer match, the CRC32C stored in the trailer equals the CRC32C
of the footer bytes (the declared number of bytes immediately preceding the
trailer, inside the file body), and the footer payload parses. -/
def c1_stated_success {F : Type} (crc : List Nat → Nat) (parse : List Nat → Option F)
    (file : List Nat) : Bool :=
  let body := file.take (file.length - 12)
  let footer_bytes := body.drop (body.length - footer_len file)
  decide (¬ file.length < 12) &&
  decide ((trailer_buf file).drop 8 = k_segment_magic) &&
  decide (crc footer_bytes = stored_crc file) &&
  (parse footer_bytes).isSome

/-! ### Segment::new_iterator (segment.cpp) -/

/-- The part of `ColumnReader` that `Segment::new_iterator` consults for
zone-map pruning: `has_zone_map()` and `match_condition(cond)` (the reader
implementation itself, `column_reader.cpp`, is a collaborator outside the
embedded function; its answers are abstracted as data). -/
structure ColumnReaderZM (Cond : Type) where
  has_zone_map : Bool
  match_condition : Cond → Bool

/-- The two statistics fields of `OlapReaderStatistics` that
`Segment::new_iterator` mutates. -/
structure OlapReaderStatistics where
  total_segment_number : Nat := 0
  filtered_segment_number : Nat := 0
deriving DecidableEq, Repr

/-- `StorageReadOptions`: the optional per-column conditions
(`conditions->columns()`, a map from column id to condition, modelled as an
association list) and the statistics sink `stats`. -/
structure StorageReadOptions (Cond : Type) where
  conditions : Option (List (Nat × Cond))
  stats : OlapReaderStatistics

/-- The row iterator produced by `Segment::new_iterator`: either an
`EmptySegmentIterator(schema)` or a `SegmentIterator(segment, schema)` that
was then initialized with the read options. -/
inductive RowwiseIteratorKind (S Cond : Type) where
  | EmptySegmentIterator (schema : S)
  | SegmentIterator (schema : S) (opts : StorageReadOptions Cond)

/-- The condition loop of `Segment::new_iterator`: scan the column conditions
in order; a column whose reader is absent or has no zone map is skipped
(`continue`); the first column whose zone map fails `match_condition` stops
the scan with `true` (prune the segment). -/
def zone_map_prune {Cond : Type} (column_readers : List (Option (ColumnReaderZM Cond))) :
    List (Nat × Cond) → Bool
  | [] => false
  | cc :: rest =>
    match column_readers.getD cc.1 none with
    | none => zone_map_prune column_readers rest
    | some reader =>
      if reader.has_zone_map = false then zone_map_prune column_readers rest
      else if reader.match_condition cc.2 = false then true
      else zone_map_prune column_readers rest

/-- `Segment::new_iterator` after the `_is_open` check: increment
`total_segment_number`; if some condition's zone map rules the segment out,
return an `EmptySegmentIterator` and increment `filtered_segment_number`;
otherwise load the short-key index (`_load_index`, abstracted as its
`Except` outcome `load_index`) and return a `SegmentIterator` initialized
with the read options.  Returns the outcome plus the final statistics. -/
def new_iterator_opened {S Cond : Type} (load_index : Except Status Unit)
    (column_readers : List (Option (ColumnReaderZM Cond))) (schema : S)
    (read_options : StorageReadOptions Cond) :
    Except Status (RowwiseIteratorKind S Cond) × OlapReaderStatistics :=
  let stats1 : OlapReaderStatistics :=
    { read_options.stats with
      total_segment_number := read_options.stats.total_segment_number + 1 }
  let pruned : Bool :=
    match read_options.conditions with
    | none => false
    | some conds => zone_map_prune column_readers conds
  if pruned then
    (Except.ok (RowwiseIteratorKind.EmptySegmentIterator schema),
     { stats1 with filtered_segment_number := stats1.filtered_segment_number + 1 })
  else
    match load_index with
    | Except.error e => (Except.error e, stats1)
    | Except.ok _ =>
      (Except.ok (RowwiseIteratorKind.SegmentIterator schema read_options), stats1)

/-- `Segment::new_iterator` including the leading
`if (!_is_open) RETURN_IF_ERROR(_open())` step; `open_result` abstracts the
outcome of `_open()`. -/
def new_iterator {S Cond : Type} (is_open : Bool) (open_result : Except Status Unit)
    (load_index : Except Status Unit)
    (column_readers : List (Option (ColumnReaderZM Cond))) (schema : S)
    (read_options : StorageReadOptions Cond) :
    Except Status (RowwiseIteratorKind S Cond) × OlapReaderStatistics :=
  if is_open = false then
    match open_result with
    | Except.error e => (Except.error e, read_options.stats)
    | Except.ok _ => new_iterator_opened load_index column_readers schema read_options
  else new_iterator_opened load_index column_readers schema read_options

/-! ### Segment::new_column_iterator (segment.cpp) -/

/-- The fields of `TabletColumn` consulted by `Segment::new_column_iterator`:
`has_default_value()`, `default_value()` (payload modelled as an opaque
number), `is_nullable()` and `length()`. -/
structure TabletColumn where
  has_default_value : Bool
  default_value : Nat
  is_nullable : Bool
  length : Nat
deriving DecidableEq, Repr

/-- The column iterator produced by `Segment::new_column_iterator`: either a
`DefaultValueColumnIterator` built from the column's declared default and
nullability, or the iterator produced by the column's reader. -/
inductive ColumnIteratorKind (R : Type) where
  | DefaultValueColumnIterator (has_default : Bool) (default_value : Nat)
      (nullable : Bool) (len : Nat)
  | ReaderColumnIterator (reader : R)

/-- Shallow embedding of `Segment::new_column_iterator`.
`reader_new_iterator` abstracts `ColumnReader::new_iterator` (implementation
not under `src/`).  Modelled from the spec: `DefaultValueColumnIterator::init`
and `get_type_info` are not under `src/`; per the spec the absent-column path
returns a constant/default-value iterator instead of failing, so `init` is
modelled as succeeding.  A column is absent exactly when
`_column_readers[cid]` is null. -/
def new_column_iterator {R : Type}
    (reader_new_iterator : R → Except Status (ColumnIteratorKind R))
    (column_readers : List (Option R)) (tablet_schema : List TabletColumn)
    (cid : Nat) : Except Status (ColumnIteratorKind R) :=
  match column_readers.getD cid none with
  | none =>
    let tablet_column := tablet_schema.getD cid ⟨false, 0, false, 0⟩
    if !tablet_column.has_default_value && !tablet_column.is_nullable then
      Except.error Status.InternalError
    else
      Except.ok (ColumnIteratorKind.DefaultValueColumnIterator
        tablet_column.has_default_value tablet_column.default_value
        tablet_column.is_nullable tablet_column.length)
  | some reader => reader_new_iterator reader

/-! ### TabletState and TabletMeta (tablet_meta.h) -/

/-- The tablet lifecycle states (`enum TabletState`, tablet_meta.h). -/
inductive TabletState where
  | TABLET_NOTREADY
  | TABLET_RUNNING
  | TABLET_TOMBSTONED
  | TABLET_STOPPED
  | TABLET_SHUTDOWN
deriving DecidableEq, Repr

/-- Position of a state along the forward direction
NOTREADY, RUNNING, TOMBSTONED, STOPPED, SHUTDOWN (the enum order and the
left-to-right order of the transition diagram in tablet_meta.h). -/
def TabletState.rank : TabletState → Nat
  | TabletState.TABLET_NOTREADY => 0
  | TabletState.TABLET_RUNNING => 1
  | TabletState.TABLET_TOMBSTONED => 2
  | TabletState.TABLET_STOPPED => 3
  | TabletState.TABLET_SHUTDOWN => 4

/-- The legal transitions listed by the claim and the spec (§4.5):
NOTREADY→RUNNING, RUNNING→TOMBSTONED, RUNNING→STOPPED, TOMBSTONED→STOPPED,
STOPPED→SHUTDOWN. -/
def legal_transition : TabletState → TabletState → Bool
  | TabletState.TABLET_NOTREADY, TabletState.TABLET_RUNNING => true
  | TabletState.TABLET_RUNNING, TabletState.TABLET_TOMBSTONED => true
  | TabletState.TABLET_RUNNING, TabletState.TABLET_STOPPED => true
  | TabletState.TABLET_TOMBSTONED, TabletState.TABLET_STOPPED => true
  | TabletState.TABLET_STOPPED, TabletState.TABLET_SHUTDOWN => true
  | _, _ => false

/-- The fields of `RowsetMeta` that the embedded `TabletMeta` accessors
consult: `num_rows()`, `data_disk_size()`, `is_local()`. -/
structure RowsetMeta where
  num_rows : Nat
  data_disk_size : Nat
  is_local : Bool
deriving DecidableEq, Repr

/-- The fields of `TabletMeta` the claims are about: `_tablet_state`
(initialized to `TABLET_NOTREADY` as in tablet_meta.h), the active rowset
metas `_rs_metas` and the stale ones `_stale_rs_metas`. -/
structure TabletMeta where
  tablet_state : TabletState := TabletState.TABLET_NOTREADY
  rs_metas : List RowsetMeta := []
  stale_rs_metas : List RowsetMeta := []
deriving DecidableEq, Repr

/-- `TabletMeta::set_tablet_state` (tablet_meta.h):
`_tablet_state = state;`. -/
def set_tablet_state (m : TabletMeta) (state : TabletState) : TabletMeta :=
  { m with tablet_state := state }

/-- The sequence of states observed over a sequence of `set_tablet_state`
calls, starting with the current state. -/
def observed_states : TabletMeta → List TabletState → List TabletState
  | m, [] => [m.tablet_state]
  | m, s :: rest => m.tablet_state :: observed_states (set_tablet_state m s) rest

/-- No adjacent pair of observed states moves backward (rank decreases). -/
def no_backward_step : List TabletState → Bool
  | [] => true
  | [_] => true
  | a :: b :: rest => decide (TabletState.rank a ≤ TabletState.rank b) &&
      no_backward_step (b :: rest)

/-- `size_t` addition: 64-bit wrap-around. -/
def size_t_add (a b : Nat) : Nat := (a + b) % 2 ^ 64

/-- `TabletMeta::num_rows` (tablet_meta.h): sum of `num_rows()` over
`_rs_metas`. -/
def TabletMeta.num_rows (m : TabletMeta) : Nat :=
  m.rs_metas.foldl (fun acc rs => size_t_add acc rs.num_rows) 0

/-- `TabletMeta::tablet_footprint` (tablet_meta.h): sum of `data_disk_size()`
over the active `_rs_metas`. -/
def tablet_footprint (m : TabletMeta) : Nat :=
  m.rs_metas.foldl (fun total_size rs => size_t_add total_size rs.data_disk_size) 0

/-- `TabletMeta::tablet_local_size` (tablet_meta.h): sum of
`data_disk_size()` over the active `_rs_metas` with `is_local()`. -/
def tablet_local_size (m : TabletMeta) : Nat :=
  m.rs_metas.foldl
    (fun total_size rs =>
      if rs.is_local then size_t_add total_size rs.data_disk_size else total_size) 0

/-- `TabletMeta::tablet_remote_size` (tablet_meta.h): sum of
`data_disk_size()` over the active `_rs_metas` with `!is_local()`. -/
def tablet_remote_size (m : TabletMeta) : Nat :=
  m.rs_metas.foldl
    (fun total_size rs =>
      if !rs.is_local then size_t_add total_size rs.data_disk_size else total_size) 0

/-! ### DeleteBitmap (tablet_meta.h) -/

/-- `DeleteBitmap::BitmapKey = std::tuple<RowsetId, SegmentId, Version>`
(rowset id modelled as a number). -/
abbrev BitmapKey := Nat × Nat × Nat

/-- A roaring bitmap of row ids, modelled as the list of set row ids. -/
abbrev Roaring := List Nat

/-- `roaring::Roaring::add`: mark a row id (idempotent set insertion). -/
def roaring_add (bitmap : Roaring) (row_id : Nat) : Roaring :=
  if row_id ∈ bitmap then bitmap else row_id :: bitmap

/-- `roaring::Roaring::remove`: clear a row id. -/
def roaring_remove (bitmap : Roaring) (row_id : Nat) : Roaring :=
  bitmap.filter (fun x => x ≠ row_id)

/-- `roaring::Roaring::contains`. -/
def roaring_contains (bitmap : Roaring) (row_id : Nat) : Bool :=
  bitmap.any (fun x => x = row_id)

/-- `DeleteBitmap::delete_bitmap`, the ordered `std::map<BitmapKey, Roaring>`,
modelled as an association list of key/bitmap entries (one entry per key). -/
abbrev DeleteBitmap := List (BitmapKey × Roaring)

/-- `delete_bitmap.find(bmk)`: the bitmap stored at the key, if any. -/
def DeleteBitmap.find : DeleteBitmap → BitmapKey → Option Roaring
  | [], _ => none
  | e :: rest, bmk => if e.1 = bmk then some e.2 else DeleteBitmap.find rest bmk

/-- Modelled from the spec: `DeleteBitmap::add` (its implementation,
tablet_meta.cpp, is not under `src/`; the declaration and its doc comment
are, tablet_meta.h).  Marks the row deleted at the key, inserting a fresh
bitmap when the key is absent; idempotent. -/
def DeleteBitmap.add : DeleteBitmap → BitmapKey → Nat → DeleteBitmap
  | [], bmk, row_id => [(bmk, roaring_add [] row_id)]
  | e :: rest, bmk, row_id =>
    if e.1 = bmk then (e.1, roaring_add e.2 row_id) :: rest
    else e :: DeleteBitmap.add rest bmk row_id

/-- Modelled from the spec: `DeleteBitmap::remove(bmk, row_id)` (its
implementation, tablet_meta.cpp, is not under `src/`; the declaration and its
doc comment are, tablet_meta.h: clears the deletion mark of the row, and
returns non-zero if the associated delete bitmap does not exist).  The
"does not exist" return code is modelled as `-1`, success as `0`. -/
def DeleteBitmap.remove : DeleteBitmap → BitmapKey → Nat → DeleteBitmap × Int
  | [], _, _ => ([], -1)
  | e :: rest, bmk, row_id =>
    if e.1 = bmk then ((e.1, roaring_remove e.2 row_id) :: rest, 0)
    else
      let res := DeleteBitmap.remove rest bmk row_id
      (e :: res.1, res.2)

/-- Modelled from the spec: `DeleteBitmap::contains(bmk, row_id)` (its
implementation is not under `src/`; the declaration and its doc comment are):
true when the row is marked deleted under the key. -/
def DeleteBitmap.contains (db : DeleteBitmap) (bmk : BitmapKey) (row_id : Nat) : Bool :=
  match DeleteBitmap.find db bmk with
  | none => false
  | some bitmap => roaring_contains bitmap row_id

/-! ### Case lemmas for parse_footer -/

lemma parse_footer_of_lt {F : Type} (crc : List Nat → Nat) (parse : List Nat → Option F)
    (file : List Nat) (h : file.length < 12) :
    parse_footer crc parse file = (Except.error Status.Corruption, []) := by
  simp [parse_footer, h]

lemma parse_footer_of_bad_magic {F : Type} (crc : List Nat → Nat)
    (parse : List Nat → Option F) (file : List Nat)
    (h1 : ¬ file.length < 12)
    (h2 : (trailer_buf file).drop 8 ≠ k_segment_magic) :
    parse_footer crc parse file =
      (Except.error Status.Corruption, [⟨file.length - 12, 12⟩]) := by
  simp only [trailer_buf] at h2
  simp [parse_footer, h1, h2]

lemma parse_footer_of_len_overrun {F : Type} (crc : List Nat → Nat)
    (parse : List Nat → Option F) (file : List Nat)
    (h1 : ¬ file.length < 12)
    (h2 : (trailer_buf file).drop 8 = k_segment_magic)
    (h3 : file.length < (12 + footer_len file) % 2 ^ 32) :
    parse_footer crc parse file =
      (Except.error Status.Corruption, [⟨file.length - 12, 12⟩]) := by
  simp only [trailer_buf, footer_len] at h2 h3
  have h3n : file.length <
      (12 + decode_fixed32_le (read_at file (file.length - 12) 12)) % 4294967296 := h3
  simp [parse_footer, h1, h2, h3n]

lemma parse_footer_of_bad_crc {F : Type} (crc : List Nat → Nat)
    (parse : List Nat → Option F) (file : List Nat)
    (h1 : ¬ file.length < 12)
    (h2 : (trailer_buf file).drop 8 = k_segment_magic)
    (h3 : ¬ file.length < (12 + footer_len file) % 2 ^ 32)
    (h4 : crc (footer_buf file) ≠ stored_crc file) :
    parse_footer crc parse file =
      (Except.error Status.Corruption,
       [⟨file.length - 12, 12⟩, ⟨file.length - 12 - footer_len file, footer_len file⟩]) := by
  simp only [trailer_buf, footer_len, footer_buf, stored_crc] at h2 h3 h4 ⊢
  have h3n : ¬ file.length <
      (12 + decode_fixed32_le (read_at file (file.length - 12) 12)) % 4294967296 := h3
  simp [parse_footer, h1, h2, h3n, h4]

lemma parse_footer_of_parse_none {F : Type} (crc : List Nat → Nat)
    (parse : List Nat → Option F) (file : List Nat)
    (h1 : ¬ file.length < 12)
    (h2 : (trailer_buf file).drop 8 = k_segment_magic)
    (h3 : ¬ file.length < (12 + footer_len file) % 2 ^ 32)
    (h4 : crc (footer_buf file) = stored_crc file)
    (h5 : parse (footer_buf file) = none) :
    parse_footer crc parse file =
      (Except.error Status.Corruption,
       [⟨file.length - 12, 12⟩, ⟨file.length - 12 - footer_len file, footer_len file⟩]) := by
  simp only [trailer_buf, footer_len, footer_buf, stored_crc] at h2 h3 h4 h5 ⊢
  have h3n : ¬ file.length <
      (12 + decode_fixed32_le (read_at file (file.length - 12) 12)) % 4294967296 := h3
  simp [parse_footer, h1, h2, h3n, h4, h5]

lemma parse_footer_of_success {F : Type} (crc : List Nat → Nat)
    (parse : List Nat → Option F) (file : List Nat) (f : F)
    (h1 : ¬ file.length < 12)
    (h2 : (trailer_buf file).drop 8 = k_segment_magic)
    (h3 : ¬ file.length < (12 + footer_len file) % 2 ^ 32)
    (h4 : crc (footer_buf file) = stored_crc file)
    (h5 : parse (footer_buf file) = some f) :
    parse_footer crc parse file =
      (Except.ok f,
       [⟨file.length - 12, 12⟩, ⟨file.length - 12 - footer_len file, footer_len file⟩]) := by
  simp only [trailer_buf, footer_len, footer_buf, stored_crc] at h2 h3 h4 h5 ⊢
  have h3n : ¬ file.length <
      (12 + decode_fixed32_le (read_at file (file.length - 12) 12)) % 4294967296 := h3
  simp [parse_footer, h1, h2, h3n, h4, h5]

lemma decode_encode_fixed32_le (n : Nat) (l : List Nat) (h : n < 4294967296) :
    decode_fixed32_le (encode_fixed32_le n ++ l) = n := by
  simp [decode_fixed32_le, encode_fixed32_le]
  omega

lemma segment_file_length (body footer : List Nat) (crcv : Nat) :
    (segment_file body footer crcv).length = body.length + footer.length + 12 := by
  simp [segment_file, encode_fixed32_le, k_segment_magic]
  omega

lemma segment_file_trailer_buf (body footer : List Nat) (crcv : Nat) :
    trailer_buf (segment_file body footer crcv) =
      encode_fixed32_le footer.length ++ encode_fixed32_le crcv ++ k_segment_magic := by
  have hrep : segment_file body footer crcv =
      (body ++ footer) ++
        (encode_fixed32_le footer.length ++ encode_fixed32_le crcv ++ k_segment_magic) := by
    simp [segment_file, List.append_assoc]
  have hlen : (segment_file body footer crcv).length - 12 = (body ++ footer).length := by
    rw [segment_file_length]
    simp
  rw [trailer_buf, read_at, hlen, hrep, List.drop_left]
  apply List.take_of_length_le
  simp [encode_fixed32_le, k_segment_magic]

lemma segment_file_footer_len (body footer : List Nat) (crcv : Nat)
    (h : footer.length < 4294967296) :
    footer_len (segment_file body footer crcv) = footer.length := by
  rw [footer_len, segment_file_trailer_buf, List.append_assoc,
    decode_encode_fixed32_le _ _ h]

lemma segment_file_stored_crc (body footer : List Nat) (crcv : Nat)
    (h : crcv < 4294967296) :
    stored_crc (segment_file body footer crcv) = crcv := by
  rw [stored_crc, segment_file_trailer_buf]
  have : (encode_fixed32_le footer.length ++ encode_fixed32_le crcv ++
      k_segment_magic).drop 4 = encode_fixed32_le crcv ++ k_segment_magic := by
    simp [encode_fixed32_le, k_segment_magic]
  rw [this, decode_encode_fixed32_le _ _ h]

lemma segment_file_magic (body footer : List Nat) (crcv : Nat) :
    (trailer_buf (segment_file body footer crcv)).drop 8 = k_segment_magic := by
  rw [segment_file_trailer_buf]
  simp [encode_fixed32_le, k_segment_magic]

lemma segment_file_footer_buf (body footer : List Nat) (crcv : Nat)
    (h : footer.length < 4294967296) :
    footer_buf (segment_file body footer crcv) = footer := by
  have hoff : (segment_file body footer crcv).length - 12 -
      footer_len (segment_file body footer crcv) = body.length := by
    rw [segment_file_footer_len _ _ _ h, segment_file_length]
    omega
  have hrep : segment_file body footer crcv =
      body ++ (footer ++ (encode_fixed32_le footer.length ++ encode_fixed32_le crcv ++
        k_segment_magic)) := by
    simp [segment_file, List.append_assoc]
  rw [footer_buf, read_at, hoff, segment_file_footer_len _ _ _ h, hrep,
    List.drop_left, List.take_left]

/-! ### Claim C6 -/

/-- C6: for every segment file smaller than 12 bytes (in particular one
truncated to 8 bytes), the footer parse driving `Segment::open` returns a
`Corruption` status and performs no read at all, so it never reads out of
bounds. -/
theorem C6_truncated_file_corruption_no_reads : ∀ {F : Type} (crc : List Nat → Nat)
    (parse : List Nat → Option F) (file : List Nat), file.length < 12 →
    parse_footer crc parse file = (Except.error Status.Corruption, []) :=
  fun crc parse file h => parse_footer_of_lt crc parse file h

/-- Witness for C6 at the 8-byte file of the spec scenario. -/
theorem C6_witness :
    ([0, 0, 0, 0, 0, 0, 0, 0] : List Nat).length < 12 ∧
    parse_footer crc32c parse_any [0, 0, 0, 0, 0, 0, 0, 0] =
      (Except.error Status.Corruption, []) :=
  ⟨by decide, C6_truncated_file_corruption_no_reads crc32c parse_any _ (by decide)⟩

/-! ### Claim C9 -/

set_option maxRecDepth 8000 in
/-- C9 failing-input evaluation: a 16-byte file with a valid trailer magic
whose declared footer length is `0xFFFFFFFF`, so that `file_size < 12 + L`
holds (16 < 4294967307) — the claim's hypotheses.  The claim asserts a
`Corruption` return with no footer read attempted; but the `uint32` sum
`12 + footer_length` wraps to 11, the guard `file_size < 11` is false and
bypassed, and the code goes on to attempt the 4294967295-byte footer read
(whose u64 offset underflows out of range, failing the source's own
`DCHECK_EQ(bytes_read, footer_length)`): the read trace has a second entry
of exactly that length. -/
theorem C9_wrap_failing_input_eval :
    12 ≤ ([0, 0, 0, 0, 255, 255, 255, 255, 0, 0, 0, 0, 68, 48, 82, 49] : List Nat).length ∧
    (trailer_buf [0, 0, 0, 0, 255, 255, 255, 255, 0, 0, 0, 0, 68, 48, 82, 49]).drop 8 =
      k_segment_magic ∧
    ([0, 0, 0, 0, 255, 255, 255, 255, 0, 0, 0, 0, 68, 48, 82, 49] : List Nat).length <
      12 + footer_len [0, 0, 0, 0, 255, 255, 255, 255, 0, 0, 0, 0, 68, 48, 82, 49] ∧
    (parse_footer crc32c parse_any
        [0, 0, 0, 0, 255, 255, 255, 255, 0, 0, 0, 0, 68, 48, 82, 49]).2.map ReadOp.len =
      [12, 4294967295] := by
  refine ⟨by decide, by decide, by decide, by decide⟩

/-! ### Claim C2 -/

/-- C2: the trailer is the last 12 bytes laid out as a 4-byte little-endian
footer length, a 4-byte little-endian CRC32C of the footer bytes, then the
4-byte magic, with the footer immediately preceding the trailer; on such a
file the footer parse succeeds and performs exactly two reads — the 12-byte
trailer read at `file_size - 12` followed by the `footer_length`-byte footer
read at `file_size - 12 - footer_length` — whatever the size of the body. -/
theorem C2_trailer_layout_and_two_reads : ∀ {F : Type} (crc : List Nat → Nat)
    (parse : List Nat → Option F) (body footer : List Nat) (f : F),
    footer.length < 4294967296 → crc footer < 4294967296 → parse footer = some f →
    parse_footer crc parse (segment_file body footer (crc footer)) =
      (Except.ok f,
       [⟨body.length + footer.length, 12⟩, ⟨body.length, footer.length⟩]) := by
  intro F crc parse body footer f hL hC hp
  have hlen := segment_file_length body footer (crc footer)
  have hfl := segment_file_footer_len body footer (crc footer) hL
  have hfb := segment_file_footer_buf body footer (crc footer) hL
  have h1 : ¬ (segment_file body footer (crc footer)).length < 12 := by omega
  have h3 : ¬ (segment_file body footer (crc footer)).length <
      (12 + footer_len (segment_file body footer (crc footer))) % 2 ^ 32 := by
    rw [hfl]
    have hm : (12 + footer.length) % 2 ^ 32 ≤ 12 + footer.length := Nat.mod_le _ _
    omega
  have h4 : crc (footer_buf (segment_file body footer (crc footer))) =
      stored_crc (segment_file body footer (crc footer)) := by
    rw [hfb, segment_file_stored_crc body footer (crc footer) hC]
  have h5 : parse (footer_buf (segment_file body footer (crc footer))) = some f := by
    rw [hfb]; exact hp
  have hmain := parse_footer_of_success crc parse
    (segment_file body footer (crc footer)) f h1
    (segment_file_magic body footer (crc footer)) h3 h4 h5
  rw [hmain, hfl]
  have e1 : (segment_file body footer (crc footer)).length - 12 =
      body.length + footer.length := by omega
  have e2 : body.length + footer.length - footer.length = body.length := by omega
  rw [e1, e2]

/-- Witness for C2: empty body, one-byte footer, real CRC32C checksum. -/
theorem C2_witness :
    ([7] : List Nat).length < 4294967296 ∧ crc32c [7] < 4294967296 ∧
    parse_any [7] = some [7] ∧
    parse_footer crc32c parse_any (segment_file [] [7] (crc32c [7])) =
      (Except.ok [7], [⟨1, 12⟩, ⟨0, 1⟩]) :=
  ⟨by decide, by decide, by decide,
   C2_trailer_layout_and_two_reads crc32c parse_any [] [7] [7]
     (by decide) (by decide) (by decide)⟩

/-! ### Claim C1 -/

/-- C1 counterexample: a 12-byte file — valid magic, stored checksum 0 which
is the CRC32C of the (empty) bytes preceding the trailer, and an empty
payload that parses — whose trailer declares footer length 1.  All four
conditions of the claim for success hold, yet the code returns `Corruption`
(because `file_size < 12 + footer_length`). -/
theorem C1_counterexample :
    c1_stated_success crc32c parse_any [1, 0, 0, 0, 0, 0, 0, 0, 68, 48, 82, 49] = true ∧
    (parse_footer crc32c parse_any [1, 0, 0, 0, 0, 0, 0, 0, 68, 48, 82, 49]).1 =
      Except.error Status.Corruption :=
  ⟨by decide, by rfl⟩

/-- C1 (amended): for every file whose declared footer length `L` keeps the
32-bit sum `12 + L` below `2 ^ 32` (so the source's `uint32` guard
arithmetic does not wrap; for larger `L` the guard is bypassed and a footer
read is attempted — see C9), the footer parse of `Segment::open` fails with
`Corruption` in exactly these cases — the file is smaller than the fixed
12-byte trailer, the magic bytes do not match, the declared footer length
overruns the body (`file_size < 12 + L`), the stored CRC32C differs from the
CRC32C of the footer bytes, or the footer payload fails to parse; when none
of these hold, the parse succeeds with the eagerly parsed footer. -/
theorem C1_open_corruption_cases_amended : ∀ {F : Type} (crc : List Nat → Nat)
    (parse : List Nat → Option F) (file : List Nat),
    12 + footer_len file < 2 ^ 32 →
    ((parse_footer crc parse file).1 = Except.error Status.Corruption ↔
      (file.length < 12 ∨
       (trailer_buf file).drop 8 ≠ k_segment_magic ∨
       file.length < 12 + footer_len file ∨
       crc (footer_buf file) ≠ stored_crc file ∨
       parse (footer_buf file) = none)) ∧
    (∀ f : F, ¬ file.length < 12 →
      (trailer_buf file).drop 8 = k_segment_magic →
      ¬ file.length < 12 + footer_len file →
      crc (footer_buf file) = stored_crc file →
      parse (footer_buf file) = some f →
      (parse_footer crc parse file).1 = Except.ok f) := by
  intro F crc parse file hw
  have hmod : (12 + footer_len file) % 2 ^ 32 = 12 + footer_len file :=
    Nat.mod_eq_of_lt hw
  constructor
  · by_cases h1 : file.length < 12
    · rw [parse_footer_of_lt crc parse file h1]
      simp [h1]
    · by_cases h2 : (trailer_buf file).drop 8 = k_segment_magic
      · by_cases h3 : file.length < 12 + footer_len file
        · rw [parse_footer_of_len_overrun crc parse file h1 h2 (by rw [hmod]; exact h3)]
          simp [h3]
        · have h3m : ¬ file.length < (12 + footer_len file) % 2 ^ 32 := by
            rw [hmod]; exact h3
          by_cases h4 : crc (footer_buf file) = stored_crc file
          · rcases hp : parse (footer_buf file) with _ | f
            · rw [parse_footer_of_parse_none crc parse file h1 h2 h3m h4 hp]
              simp
            · rw [parse_footer_of_success crc parse file f h1 h2 h3m h4 hp]
              simp [h1, h2, h3, h4, hp]
          · rw [parse_footer_of_bad_crc crc parse file h1 h2 h3m h4]
            simp [h4]
      · rw [parse_footer_of_bad_magic crc parse file h1 h2]
        simp [h2]
  · intro f h1 h2 h3 h4 h5
    rw [parse_footer_of_success crc parse file f h1 h2 (by rw [hmod]; exact h3) h4 h5]

/-- Witness for C1 (amended) on a valid 12-byte file with an empty footer. -/
theorem C1_witness :
    (parse_footer crc32c parse_any [0, 0, 0, 0, 0, 0, 0, 0, 68, 48, 82, 49]).1 =
      Except.ok [] :=
  (C1_open_corruption_cases_amended crc32c parse_any
      [0, 0, 0, 0, 0, 0, 0, 0, 68, 48, 82, 49] (by decide)).2 []
    (by decide) (by decide) (by decide) (by decide) (by decide)

/-! ### Claim C4 -/

/-- C4 counterexample: `set_tablet_state` enforces nothing.  Starting from a
fresh meta, the call sequence [SHUTDOWN, RUNNING] is accepted and the
observed state sequence NOTREADY, SHUTDOWN, RUNNING moves backward (the rank
drops from 4 to 1), through a transition the legal-transition list does not
contain. -/
theorem C4_counterexample :
    no_backward_step (observed_states { tablet_state := TabletState.TABLET_NOTREADY }
      [TabletState.TABLET_SHUTDOWN, TabletState.TABLET_RUNNING]) = false ∧
    (set_tablet_state
        (set_tablet_state { tablet_state := TabletState.TABLET_NOTREADY }
          TabletState.TABLET_SHUTDOWN)
        TabletState.TABLET_RUNNING).tablet_state = TabletState.TABLET_RUNNING ∧
    legal_transition TabletState.TABLET_SHUTDOWN TabletState.TABLET_RUNNING = false := by
  decide

/-- C4 (amended): `TabletMeta::set_tablet_state` stores exactly the requested
state, unconditionally — the legal forward-only transition diagram documents
the discipline expected of callers (the Tablet class) and is not enforced by
`TabletMeta`, so a call sequence can move the state backward. -/
theorem C4_set_tablet_state_unconditional_amended :
    ∀ (m : TabletMeta) (s : TabletState) (calls : List TabletState),
    (set_tablet_state m s).tablet_state = s ∧
    observed_states m calls = m.tablet_state :: calls := by
  intro m s calls
  refine ⟨rfl, ?_⟩
  induction calls generalizing m with
  | nil => rfl
  | cons c rest ih => simp [observed_states, set_tablet_state, ih]

/-! ### Claim C10 -/

lemma foldl_size_t_add_filter (p : RowsetMeta → Bool) (g : RowsetMeta → Nat)
    (l : List RowsetMeta) (a : Nat) (ha : a < 2 ^ 64) :
    l.foldl (fun acc rs => if p rs then size_t_add acc (g rs) else acc) a =
      (a + ((l.filter p).map g).sum) % 2 ^ 64 := by
  induction l generalizing a with
  | nil => simpa using (Nat.mod_eq_of_lt ha).symm
  | cons rs rest ih =>
    by_cases hp : p rs
    · have hstep : size_t_add a (g rs) < 2 ^ 64 :=
        Nat.mod_lt _ (by norm_num)
      simp only [List.foldl_cons, List.filter_cons, hp, if_pos, List.map_cons,
        List.sum_cons]
      rw [ih (size_t_add a (g rs)) hstep, size_t_add, Nat.mod_add_mod]
      congr 1
      omega
    · simp only [List.foldl_cons, List.filter_cons, hp, if_neg, Bool.false_eq_true,
        not_false_eq_true]
      rw [ih a ha]

lemma foldl_size_t_add (g : RowsetMeta → Nat) (l : List RowsetMeta) (a : Nat)
    (ha : a < 2 ^ 64) :
    l.foldl (fun acc rs => size_t_add acc (g rs)) a = (a + (l.map g).sum) % 2 ^ 64 := by
  have h := foldl_size_t_add_filter (fun _ => true) g l a ha
  simpa using h

lemma sum_map_filter_partition (p : RowsetMeta → Bool) (g : RowsetMeta → Nat)
    (l : List RowsetMeta) :
    (l.map g).sum =
      ((l.filter p).map g).sum + ((l.filter (fun rs => !p rs)).map g).sum := by
  induction l with
  | nil => simp
  | cons rs rest ih =>
    by_cases hp : p rs <;> simp [List.filter_cons, hp, ih] <;> omega

/-- C10: the total disk footprint of a tablet equals its local size plus its
remote size (as 64-bit `size_t` arithmetic): all three sums range over
exactly the active `_rs_metas`, partitioned by `is_local()`. -/
theorem C10_footprint_eq_local_plus_remote : ∀ (m : TabletMeta),
    tablet_footprint m = (tablet_local_size m + tablet_remote_size m) % 2 ^ 64 := by
  intro m
  have hfoot := foldl_size_t_add (fun rs => rs.data_disk_size) m.rs_metas 0 (by norm_num)
  have hlocal := foldl_size_t_add_filter (fun rs => rs.is_local)
    (fun rs => rs.data_disk_size) m.rs_metas 0 (by norm_num)
  have hremote := foldl_size_t_add_filter (fun rs => !rs.is_local)
    (fun rs => rs.data_disk_size) m.rs_metas 0 (by norm_num)
  rw [tablet_footprint, tablet_local_size, tablet_remote_size, hfoot, hlocal, hremote,
    Nat.add_mod ((0 + _) % 2 ^ 64)]
  rw [Nat.mod_mod_of_dvd, Nat.mod_mod_of_dvd] <;> try exact dvd_rfl
  rw [← Nat.add_mod]
  simp only [Nat.zero_add]
  rw [sum_map_filter_partition (fun rs => rs.is_local) (fun rs => rs.data_disk_size)]

/-! ### Claim C3 -/

/-- C3: for a column id whose column has no reader in this segment (absent
from the footer), `Segment::new_column_iterator` fails with `InternalError`
exactly when the column has neither a declared default value nor
nullability; in every other case it succeeds with a
`DefaultValueColumnIterator` synthesizing the declared default or null. -/
theorem C3_absent_column_default_iterator : ∀ {R : Type}
    (rni : R → Except Status (ColumnIteratorKind R))
    (column_readers : List (Option R)) (tablet_schema : List TabletColumn) (cid : Nat),
    column_readers.getD cid none = none →
    ((new_column_iterator rni column_readers tablet_schema cid =
        Except.error Status.InternalError ↔
      (tablet_schema.getD cid ⟨false, 0, false, 0⟩).has_default_value = false ∧
      (tablet_schema.getD cid ⟨false, 0, false, 0⟩).is_nullable = false) ∧
     ((tablet_schema.getD cid ⟨false, 0, false, 0⟩).has_default_value = true ∨
      (tablet_schema.getD cid ⟨false, 0, false, 0⟩).is_nullable = true →
       new_column_iterator rni column_readers tablet_schema cid =
         Except.ok (ColumnIteratorKind.DefaultValueColumnIterator
           (tablet_schema.getD cid ⟨false, 0, false, 0⟩).has_default_value
           (tablet_schema.getD cid ⟨false, 0, false, 0⟩).default_value
           (tablet_schema.getD cid ⟨false, 0, false, 0⟩).is_nullable
           (tablet_schema.getD cid ⟨false, 0, false, 0⟩).length))) := by
  intro R rni column_readers tablet_schema cid habsent
  unfold new_column_iterator
  rw [habsent]
  set col := tablet_schema.getD cid ⟨false, 0, false, 0⟩ with hcol
  cases hd : col.has_default_value <;> cases hn : col.is_nullable <;> simp [hd, hn]

/-- Witness for C3: a one-column schema whose only column is absent from the
segment; the column declares a default value, so a default-value iterator is
produced (nullable case covered by the iff at the same input). -/
theorem C3_witness :
    (new_column_iterator (fun r : Unit => Except.ok (ColumnIteratorKind.ReaderColumnIterator r))
        [none] [⟨true, 42, false, 8⟩] 0 =
       Except.error Status.InternalError ↔
      (([⟨true, 42, false, 8⟩] : List TabletColumn).getD 0 ⟨false, 0, false, 0⟩).has_default_value = false ∧
      (([⟨true, 42, false, 8⟩] : List TabletColumn).getD 0 ⟨false, 0, false, 0⟩).is_nullable = false) ∧
    ((([⟨true, 42, false, 8⟩] : List TabletColumn).getD 0 ⟨false, 0, false, 0⟩).has_default_value = true ∨
     (([⟨true, 42, false, 8⟩] : List TabletColumn).getD 0 ⟨false, 0, false, 0⟩).is_nullable = true →
      new_column_iterator (fun r : Unit => Except.ok (ColumnIteratorKind.ReaderColumnIterator r))
          [none] [⟨true, 42, false, 8⟩] 0 =
        Except.ok (ColumnIteratorKind.DefaultValueColumnIterator
          (([⟨true, 42, false, 8⟩] : List TabletColumn).getD 0 ⟨false, 0, false, 0⟩).has_default_value
          (([⟨true, 42, false, 8⟩] : List TabletColumn).getD 0 ⟨false, 0, false, 0⟩).default_value
          (([⟨true, 42, false, 8⟩] : List TabletColumn).getD 0 ⟨false, 0, false, 0⟩).is_nullable
          (([⟨true, 42, false, 8⟩] : List TabletColumn).getD 0 ⟨false, 0, false, 0⟩).length)) :=
  C3_absent_column_default_iterator
    (fun r : Unit => Except.ok (ColumnIteratorKind.ReaderColumnIterator r))
    [none] [⟨true, 42, false, 8⟩] 0 (by decide)

/-! ### Claim C5 -/

lemma zone_map_prune_iff {Cond : Type} (column_readers : List (Option (ColumnReaderZM Cond)))
    (conds : List (Nat × Cond)) :
    zone_map_prune column_readers conds = true ↔
      ∃ cc ∈ conds, ∃ r, column_readers.getD cc.1 none = some r ∧
        r.has_zone_map = true ∧ r.match_condition cc.2 = false := by
  induction conds with
  | nil => simp [zone_map_prune]
  | cons cc rest ih =>
    simp only [zone_map_prune, List.mem_cons]
    rcases hg : column_readers.getD cc.1 none with _ | r
    · rw [ih]
      constructor
      · rintro ⟨cc2, hmem, r2, hr2, hz, hm⟩
        exact ⟨cc2, Or.inr hmem, r2, hr2, hz, hm⟩
      · rintro ⟨cc2, hmem | hmem, r2, hr2, hz, hm⟩
        · subst hmem
          rw [hg] at hr2
          cases hr2
        · exact ⟨cc2, hmem, r2, hr2, hz, hm⟩
    · dsimp only
      cases hz : r.has_zone_map
      · rw [if_pos rfl, ih]
        constructor
        · rintro ⟨cc2, hmem, r2, hr2, hz2, hm⟩
          exact ⟨cc2, Or.inr hmem, r2, hr2, hz2, hm⟩
        · rintro ⟨cc2, hmem | hmem, r2, hr2, hz2, hm⟩
          · subst hmem
            rw [hg] at hr2
            cases hr2
            rw [hz] at hz2
            cases hz2
          · exact ⟨cc2, hmem, r2, hr2, hz2, hm⟩
      · rw [if_neg (by decide : ¬(true = false))]
        cases hm : r.match_condition cc.2
        · rw [if_pos rfl]
          constructor
          · intro _
            exact ⟨cc, Or.inl rfl, r, hg, hz, hm⟩
          · intro _
            rfl
        · rw [if_neg (by decide : ¬(true = false)), ih]
          constructor
          · rintro ⟨cc2, hmem, r2, hr2, hz2, hm2⟩
            exact ⟨cc2, Or.inr hmem, r2, hr2, hz2, hm2⟩
          · rintro ⟨cc2, hmem | hmem, r2, hr2, hz2, hm2⟩
            · subst hmem
              rw [hg] at hr2
              cases hr2
              rw [hm] at hm2
              cases hm2
            · exact ⟨cc2, hmem, r2, hr2, hz2, hm2⟩

/-- C5: on an open segment, if the read options carry conditions and some
column with a loaded zone map fails to match its column condition, then
`Segment::new_iterator` returns success with an `EmptySegmentIterator` and
increments the filtered-segment statistic; otherwise (no conditions, or every
consulted zone map matches) it loads the short-key index and returns a real
`SegmentIterator` initialized with the read options, leaving the
filtered-segment statistic unchanged.  `total_segment_number` is incremented
either way. -/
theorem C5_new_iterator_zone_map_pruning : ∀ {S Cond : Type}
    (open_result load_index : Except Status Unit)
    (column_readers : List (Option (ColumnReaderZM Cond))) (schema : S)
    (read_options : StorageReadOptions Cond),
    (∀ conds, read_options.conditions = some conds →
      (∃ cc ∈ conds, ∃ r, column_readers.getD cc.1 none = some r ∧
        r.has_zone_map = true ∧ r.match_condition cc.2 = false) →
      new_iterator true open_result load_index column_readers schema read_options =
        (Except.ok (RowwiseIteratorKind.EmptySegmentIterator schema),
         ⟨read_options.stats.total_segment_number + 1,
          read_options.stats.filtered_segment_number + 1⟩)) ∧
    ((∀ conds, read_options.conditions = some conds →
        ∀ cc ∈ conds, ∀ r, column_readers.getD cc.1 none = some r →
          r.has_zone_map = true → r.match_condition cc.2 = true) →
      load_index = Except.ok () →
      new_iterator true open_result load_index column_readers schema read_options =
        (Except.ok (RowwiseIteratorKind.SegmentIterator schema read_options),
         ⟨read_options.stats.total_segment_number + 1,
          read_options.stats.filtered_segment_number⟩)) := by
  intro S Cond open_result load_index column_readers schema read_options
  constructor
  · intro conds hc hex
    have hp : zone_map_prune column_readers conds = true :=
      (zone_map_prune_iff column_readers conds).mpr hex
    simp [new_iterator, new_iterator_opened, hc, hp]
  · intro hall hload
    rcases hc : read_options.conditions with _ | conds
    · simp [new_iterator, new_iterator_opened, hc, hload]
    · have hp : zone_map_prune column_readers conds = false := by
        cases hpr : zone_map_prune column_readers conds
        · rfl
        · obtain ⟨cc, hmem, r, hr, hz, hm⟩ :=
            (zone_map_prune_iff column_readers conds).mp hpr
          have := hall conds hc cc hmem r hr hz
          rw [this] at hm
          cases hm
      simp [new_iterator, new_iterator_opened, hc, hp, hload]

/-- Witness for C5: a one-column segment; with a zone map that rejects the
condition the result is an empty iterator and the filtered count rises from
1 to 2; with a zone map that accepts, a real iterator carrying the read
options is produced and the filtered count stays 1. -/
theorem C5_witness :
    @new_iterator Nat Nat true (Except.ok ()) (Except.ok ())
        [some ⟨true, fun _ => false⟩] 99 ⟨some [(0, 5)], ⟨3, 1⟩⟩ =
      (Except.ok (RowwiseIteratorKind.EmptySegmentIterator 99), ⟨4, 2⟩) ∧
    @new_iterator Nat Nat true (Except.ok ()) (Except.ok ())
        [some ⟨true, fun _ => true⟩] 99 ⟨some [(0, 5)], ⟨3, 1⟩⟩ =
      (Except.ok (RowwiseIteratorKind.SegmentIterator 99 ⟨some [(0, 5)], ⟨3, 1⟩⟩),
       ⟨4, 1⟩) := by
  constructor
  · exact (C5_new_iterator_zone_map_pruning (Except.ok ()) (Except.ok ())
      [some ⟨true, fun _ => false⟩] 99 ⟨some [(0, 5)], ⟨3, 1⟩⟩).1 [(0, 5)] rfl
      ⟨(0, 5), by simp, ⟨true, fun _ => false⟩, rfl, rfl, rfl⟩
  · refine (C5_new_iterator_zone_map_pruning (Except.ok ()) (Except.ok ())
      [some ⟨true, fun _ => true⟩] 99 ⟨some [(0, 5)], ⟨3, 1⟩⟩).2 ?_ rfl
    intro conds hc cc hmem r hr hz
    have hconds := Option.some.inj hc
    subst hconds
    have hcc := List.mem_singleton.mp hmem
    subst hcc
    have hrr := Option.some.inj hr
    subst hrr
    rfl

/-! ### Claim C7 -/

lemma roaring_remove_not_contains (bitmap : Roaring) (row_id : Nat) :
    roaring_contains (roaring_remove bitmap row_id) row_id = false := by
  induction bitmap with
  | nil => rfl
  | cons x xs ih =>
    have ih2 := ih
    simp only [roaring_remove, roaring_contains] at ih2 ⊢
    by_cases hx : x = row_id <;> simp [List.filter_cons, hx, ih2]

/-- C7: `DeleteBitmap::remove(key, row_id)` on a key with no bitmap returns
the "not found" code (-1, non-zero) and leaves the structure unchanged;
on a key that has a bitmap it returns 0 and clears the row's deletion mark,
so `contains` is false afterwards. -/
theorem C7_remove_found_vs_not_found : ∀ (db : DeleteBitmap) (bmk : BitmapKey)
    (row_id : Nat),
    (DeleteBitmap.find db bmk = none →
      DeleteBitmap.remove db bmk row_id = (db, -1)) ∧
    (∀ bitmap, DeleteBitmap.find db bmk = some bitmap →
      (DeleteBitmap.remove db bmk row_id).2 = 0 ∧
      DeleteBitmap.contains (DeleteBitmap.remove db bmk row_id).1 bmk row_id = false) := by
  intro db bmk row_id
  induction db with
  | nil =>
    refine ⟨fun _ => rfl, fun bitmap h => ?_⟩
    simp [DeleteBitmap.find] at h
  | cons e rest ih =>
    constructor
    · intro hnone
      by_cases he : e.1 = bmk
      · rw [DeleteBitmap.find, if_pos he] at hnone
        cases hnone
      · rw [DeleteBitmap.find, if_neg he] at hnone
        have hrec := ih.1 hnone
        simp [DeleteBitmap.remove, he, hrec]
    · intro bitmap hsome
      by_cases he : e.1 = bmk
      · rw [DeleteBitmap.find, if_pos he] at hsome
        simp [DeleteBitmap.remove, he, DeleteBitmap.contains, DeleteBitmap.find,
          roaring_remove_not_contains]
      · rw [DeleteBitmap.find, if_neg he] at hsome
        have hrec := ih.2 bitmap hsome
        refine ⟨?_, ?_⟩
        · simp [DeleteBitmap.remove, he, hrec.1]
        · simpa [DeleteBitmap.remove, he, DeleteBitmap.contains, DeleteBitmap.find]
            using hrec.2

/-- Witness for C7: removing from an empty map reports -1 and changes
nothing; removing row 7 under a present key reports 0 and clears it. -/
theorem C7_witness :
    DeleteBitmap.remove ([] : DeleteBitmap) (1, 2, 3) 7 = (([] : DeleteBitmap), -1) ∧
    (DeleteBitmap.remove [((1, 2, 3), [7, 9])] (1, 2, 3) 7).2 = 0 ∧
    DeleteBitmap.contains (DeleteBitmap.remove [((1, 2, 3), [7, 9])] (1, 2, 3) 7).1
      (1, 2, 3) 7 = false :=
  ⟨(C7_remove_found_vs_not_found [] (1, 2, 3) 7).1 (by decide),
   (C7_remove_found_vs_not_found [((1, 2, 3), [7, 9])] (1, 2, 3) 7).2 [7, 9] (by decide)⟩

end Doris
